import Mathlib

/-!
Verification development for the WAF decision core
(`src/main.py`, `src/logs.py`).

The Python code is shallowly embedded: pure helpers become Lean
functions, external collaborators (Redis, MongoDB, the LLM pipeline,
the isolation forest, WebSocket channels) become explicit parameters
or boolean availability flags, and Python exceptions become explicit
error constructors.  Floats are modelled as rationals.
-/

namespace WAF

/-! ### Python string helpers

`re.escape` (CPython ≥ 3.7 semantics: only the characters in
`_special_chars_map`, i.e. `()[]{}?*+-|^$\.&~#` and whitespace, are
escaped), `str.strip`, slicing, `split`, and `strip` with a character
set, used by the Rule Synthesizer embedding. -/

/-- The apostrophe character (written via its code point). -/
def sq : Char := Char.ofNat 39

/-- The double-quote character. -/
def dq : Char := Char.ofNat 34

/-- Characters escaped by CPython ≥ 3.7 `re.escape`
(`_special_chars_map`). -/
def pySpecialChars : List Char :=
  ['(', ')', '[', ']', '{', '}', '?', '*', '+', '-', '|', '^', '$',
   '\\', '.', '&', '~', '#', ' ', '\t', '\n', '\r',
   Char.ofNat 11, Char.ofNat 12]

/-- `re.escape` on one character. -/
def pyEscapeChar (c : Char) : String :=
  if c ∈ pySpecialChars then String.mk ['\\', c] else String.mk [c]

/-- `re.escape(s)` (CPython ≥ 3.7). -/
def pyEscape (s : String) : String :=
  String.join (s.data.map pyEscapeChar)

/-- Python slicing `s[:n]`. -/
def pyTake (n : Nat) (s : String) : String := ⟨s.data.take n⟩

/-- Python `s.strip('\x27\x22')`: drop leading and trailing quote
characters. -/
def pyStripQuotes (s : String) : String :=
  ⟨((s.data.dropWhile (fun c => c = sq ∨ c = dq)).reverse.dropWhile
      (fun c => c = sq ∨ c = dq)).reverse⟩

/-- Whitespace stripped by Python `str.strip()` (the ASCII part). -/
def pyIsSpace (c : Char) : Bool :=
  c = ' ' ∨ c = '\t' ∨ c = '\n' ∨ c = '\r' ∨
    c = Char.ofNat 11 ∨ c = Char.ofNat 12

/-- Python `s.strip()`. -/
def pyTrim (s : String) : String :=
  ⟨((s.data.dropWhile pyIsSpace).reverse.dropWhile pyIsSpace).reverse⟩

/-- Python `s.split('\n')[0]`: the prefix before the first newline. -/
def firstLine (s : String) : String :=
  ⟨s.data.takeWhile (fun c => c ≠ '\n')⟩

/-- One pass of Python `str.replace` over a character list, replacing
each non-overlapping occurrence of `pat` left to right.  The fuel
argument makes the recursion structural; with `fuel = length of the
subject` and a nonempty `pat` it is exact. -/
def replaceFuel (pat rep : List Char) : Nat → List Char → List Char
  | _, [] => []
  | 0, l => l
  | fuel + 1, c :: rest =>
    if pat ≠ [] ∧ pat.isPrefixOf (c :: rest) then
      rep ++ replaceFuel pat rep fuel ((c :: rest).drop pat.length)
    else
      c :: replaceFuel pat rep fuel rest

/-- Python `s.replace(pat, rep)` (for nonempty `pat`). -/
def pyReplace (s pat rep : String) : String :=
  ⟨replaceFuel pat.data rep.data s.data.length s.data⟩

/-! ### 4.1 Ensemble Detector — `predict_anomaly` (`src/main.py:137-144`)

The isolation-forest verdict on the scaled feature vector is an
external collaborator; it enters the embedding as the boolean
`if_anomaly`.  The training statistics dictionary `train_stats`
becomes the structure `TrainStats`. -/

/-- `train_stats` as built at startup (`src/main.py:87`). -/
structure TrainStats where
  mean_error : ℚ
  std_error : ℚ
  threshold_percentile : ℚ
  deriving DecidableEq, Repr

/-- The z-score computed by `predict_anomaly`:
`np.abs((reconstruction_error - mean_error) / std_error)`. -/
def z_score (reconstruction_error : ℚ) (stats : TrainStats) : ℚ :=
  |(reconstruction_error - stats.mean_error) / stats.std_error|

/-- The statistical z-score signal `z_score > 7`. -/
def statisticalSignal (reconstruction_error : ℚ) (stats : TrainStats) : Bool :=
  decide (7 < z_score reconstruction_error stats)

/-- The percentile signal
`reconstruction_error > stats['threshold_percentile']`. -/
def percentileSignal (reconstruction_error : ℚ) (stats : TrainStats) : Bool :=
  decide (stats.threshold_percentile < reconstruction_error)

/-- Python `sum` over a list of booleans counts the `True`s. -/
def boolToNat (b : Bool) : Nat := cond b 1 0

/-- `predict_anomaly` (`src/main.py:137-144`).  The model-outlier
flag `if_anomaly` (`iforest.predict(...)[0] == -1`) is an opaque
external signal and is passed in as a boolean.  Returns
`int(sum([if_anomaly, statistical_anomaly, percentile_anomaly]) >= 2)`. -/
def predict_anomaly (reconstruction_error : ℚ) (if_anomaly : Bool)
    (stats : TrainStats) : Nat :=
  let z := |(reconstruction_error - stats.mean_error) / stats.std_error|
  let statistical_anomaly : Bool := decide (7 < z)
  let percentile_anomaly : Bool :=
    decide (stats.threshold_percentile < reconstruction_error)
  if 2 ≤ boolToNat if_anomaly + boolToNat statistical_anomaly +
      boolToNat percentile_anomaly then 1 else 0

/-- **C1.** For every anomaly signal and training statistics (with a
nonzero standard deviation, so the z-score quotient is the real
quotient), `predict_anomaly` returns `1` (malicious) exactly when at
least 2 of the three binary signals — the model-outlier flag, the
statistical z-score signal `|e − μ|/σ > 7`, and the percentile signal
`e > p95` — are true, and returns `0` (benign) when at most 1 is true. -/
theorem predict_anomaly_majority (e : ℚ) (ifa : Bool) (s : TrainStats)
    (hσ : 0 < s.std_error) :
    (predict_anomaly e ifa s = 1 ↔
      2 ≤ boolToNat ifa + boolToNat (statisticalSignal e s) +
          boolToNat (percentileSignal e s)) ∧
    (predict_anomaly e ifa s = 0 ↔
      boolToNat ifa + boolToNat (statisticalSignal e s) +
          boolToNat (percentileSignal e s) ≤ 1) := by
  unfold predict_anomaly statisticalSignal percentileSignal z_score
  dsimp only
  constructor <;> split <;> omega

/-- Witness for C1 at `e = 20`, `if_anomaly = true`,
`stats = ⟨0, 1, 10⟩`. -/
theorem predict_anomaly_majority_witness :
    (0 : ℚ) < (1 : ℚ) ∧
    ((predict_anomaly 20 true ⟨0, 1, 10⟩ = 1 ↔
       2 ≤ boolToNat true + boolToNat (statisticalSignal 20 ⟨0, 1, 10⟩) +
           boolToNat (percentileSignal 20 ⟨0, 1, 10⟩)) ∧
     (predict_anomaly 20 true ⟨0, 1, 10⟩ = 0 ↔
       boolToNat true + boolToNat (statisticalSignal 20 ⟨0, 1, 10⟩) +
           boolToNat (percentileSignal 20 ⟨0, 1, 10⟩) ≤ 1)) :=
  ⟨by norm_num, predict_anomaly_majority 20 true ⟨0, 1, 10⟩ (by norm_num)⟩

/-! ### 4.2 Rule Synthesizer — `generate_rule_from_payload`
(`src/main.py:153-164`)

The text-generation pipeline is an external collaborator.  Its state
is modelled by `Oracle`: `llm_pipe = none` means the pipeline failed
to load (`llm_pipe is None`); `llm_pipe = some pipe` with
`pipe prompt = none` means the pipeline call raised; `some generated`
is the returned `generated_text`.  `compiles s` models whether
`re.compile(s)` succeeds. -/

/-- The external LLM pipeline and the regex compiler, as seen by
`generate_rule_from_payload`. -/
structure Oracle where
  llm_pipe : Option (String → Option String)
  compiles : String → Bool

/-- The fixed instruction template (`src/main.py:158`), with the
payload truncated to `payload[:200]`. -/
def promptFor (payload : String) : String :=
  "Generate a regex pattern for a WAF to detect this malicious payload. Output ONLY the regex pattern, nothing else:\n\nPayload: " ++
    pyTake 200 payload ++ "\n\nRegex pattern:"

/-- Post-processing of the oracle output (`src/main.py:160`):
`generated_text.replace(prompt, "").strip().split('\n')[0].strip('\x27\x22')`. -/
def postprocess (prompt generated : String) : String :=
  pyStripQuotes (firstLine (pyTrim (pyReplace generated prompt "")))

/-- The escaped-literal fallback `f"(?i){re.escape(payload[:100])}"`
(`src/main.py:156` and `src/main.py:164`). -/
def escapeFallback (payload : String) : String :=
  "(?i)" ++ pyEscape (pyTake 100 payload)

/-- `generate_rule_from_payload` (`src/main.py:153-164`). -/
def generate_rule_from_payload (o : Oracle) (payload : String) :
    Option String :=
  if payload.data.isEmpty || o.llm_pipe.isNone then
    some (escapeFallback payload)
  else
    match o.llm_pipe with
    | none => some (escapeFallback payload)
    | some pipe =>
      match pipe (promptFor payload) with
      | none => some (escapeFallback payload)
      | some generated =>
        let regex_part := postprocess (promptFor payload) generated
        if o.compiles regex_part then some regex_part
        else some (escapeFallback payload)

/-- An oracle whose LLM pipeline is unavailable and whose regex
compiler accepts everything. -/
def oracleDown : Oracle := ⟨none, fun _ => true⟩

/-- A word-like character: letter, digit or underscore. -/
def isWordChar (c : Char) : Bool := c.isAlphanum || c = '_'

/-- Maximal runs of word-like characters, in order.  `cur` is the
current (reversed) run being accumulated. -/
def wordTokensAux (cur : List Char) : List Char → List (List Char)
  | [] => if cur.isEmpty then [] else [cur.reverse]
  | c :: rest =>
    if isWordChar c then wordTokensAux (c :: cur) rest
    else if cur.isEmpty then wordTokensAux [] rest
    else cur.reverse :: wordTokensAux [] rest

/-- Join character-list tokens with `|`. -/
def joinAlternation : List (List Char) → String
  | [] => ""
  | [t] => ⟨t⟩
  | t :: rest => (⟨t⟩ : String) ++ "|" ++ joinAlternation rest

/-- **Modelled from the spec (§4.2 step 4), not from the source**: the
keyword-pattern fallback the spec describes — "extract up to the
first 5 word-like tokens of the lower-cased payload and join them as
an alternation, case-insensitive".  Used only to compare the spec's
claimed fallback against the code's actual fallback. -/
def specKeywordFallback (payload : String) : String :=
  "(?i)" ++
    joinAlternation ((wordTokensAux [] (payload.data.map Char.toLower)).take 5)

/-- The scenario payload `"<apostrophe> OR 1=1 --"` of §8. -/
def sqlPayload : String := String.mk [sq] ++ " OR 1=1 --"

/-- The rule text the spec claims for that scenario:
`(?i)\<apostrophe> OR 1=1 \-\-` (apostrophe escaped, spaces not). -/
def sqlSpecClaimedRule : String :=
  "(?i)\\" ++ String.mk [sq] ++ " OR 1=1 \\-\\-"

/-- The rule text the code actually produces:
`(?i)<apostrophe>\ OR\ 1=1\ \-\-` (spaces and hyphens escaped,
apostrophe not — CPython ≥ 3.7 `re.escape`). -/
def sqlActualRule : String :=
  "(?i)" ++ String.mk [sq] ++ "\\ OR\\ 1=1\\ \\-\\-"

/-- **C5 counterexample.** With the generator unavailable, the
synthesizer on the SQL-injection payload does not return the string
the spec claims: CPython ≥ 3.7 `re.escape` leaves the apostrophe
unescaped and escapes the spaces, so the output differs. -/
theorem sql_fallback_differs_from_spec :
    generate_rule_from_payload oracleDown sqlPayload ≠
      some sqlSpecClaimedRule ∧
    generate_rule_from_payload oracleDown sqlPayload =
      some sqlActualRule := by
  decide

/-- **C5 (amended).** For the payload `<apostrophe> OR 1=1 --` with
the external generator unavailable, the Rule Synthesizer returns
exactly `(?i)<apostrophe>\ OR\ 1=1\ \-\-`: the escaped-literal
fallback with spaces and hyphens escaped and the apostrophe left
unescaped. -/
theorem sql_fallback_value :
    generate_rule_from_payload oracleDown sqlPayload =
      some sqlActualRule := by
  decide

/-- An oracle whose pipeline returns the two-character output `"ab"`
(length outside the spec's claimed [3, 200] acceptance window) and
whose regex compiler accepts everything. -/
def oracleShort : Oracle := ⟨some (fun _ => some "ab"), fun _ => true⟩

/-- **C4 counterexample.** The code has no keyword-pattern tier and no
[3, 200] length check: (a) with the oracle unavailable, the payload
`hello world` yields the literal-escape pattern `(?i)hello\ world`,
not the keyword alternation `(?i)hello|world` the claim predicts;
(b) an oracle output of length 2 that compiles is accepted as-is
rather than rejected for being shorter than 3 characters. -/
theorem no_keyword_fallback_counterexample :
    generate_rule_from_payload oracleDown "hello world" =
      some ("(?i)hello\\ world") ∧
    generate_rule_from_payload oracleDown "hello world" ≠
      some (specKeywordFallback "hello world") ∧
    generate_rule_from_payload oracleShort "hello world" = some "ab" ∧
    generate_rule_from_payload oracleShort "hello world" ≠
      some (specKeywordFallback "hello world") := by
  decide

/-- **C4 (amended).** For every nonempty payload: when the oracle is
unavailable, or the oracle call errors, or the post-processed output
fails to compile, the synthesizer falls back directly to the
literal-escape pattern `(?i)` + `re.escape(payload[:100])`; when the
post-processed output compiles it is returned as-is, with no length
check and no keyword-alternation tier. -/
theorem synth_fallback_chain (payload : String) (comp : String → Bool)
    (pipe : String → Option String)
    (hne : payload.data.isEmpty = false) :
    generate_rule_from_payload ⟨none, comp⟩ payload =
      some (escapeFallback payload) ∧
    generate_rule_from_payload ⟨some (fun _ => none), comp⟩ payload =
      some (escapeFallback payload) ∧
    (∀ g, pipe (promptFor payload) = some g →
      comp (postprocess (promptFor payload) g) = false →
      generate_rule_from_payload ⟨some pipe, comp⟩ payload =
        some (escapeFallback payload)) ∧
    (∀ g, pipe (promptFor payload) = some g →
      comp (postprocess (promptFor payload) g) = true →
      generate_rule_from_payload ⟨some pipe, comp⟩ payload =
        some (postprocess (promptFor payload) g)) := by
  refine ⟨?_, ?_, ?_, ?_⟩
  · simp [generate_rule_from_payload, hne]
  · simp [generate_rule_from_payload, hne]
  · intro g hg hc
    simp [generate_rule_from_payload, hne, hg, hc]
  · intro g hg hc
    simp [generate_rule_from_payload, hne, hg, hc]

/-- Witness for C4 (amended) at payload `"abc"`, a compiler that
rejects everything, and a pipeline returning `"xy"`. -/
theorem synth_fallback_chain_witness :
    ("abc" : String).data.isEmpty = false ∧
    generate_rule_from_payload ⟨none, fun _ => false⟩ "abc" =
      some (escapeFallback "abc") ∧
    generate_rule_from_payload
        ⟨some (fun _ => some "xy"), fun _ => false⟩ "abc" =
      some (escapeFallback "abc") :=
  ⟨by decide,
   (synth_fallback_chain "abc" (fun _ => false) (fun _ => some "xy")
      (by decide)).1,
   (synth_fallback_chain "abc" (fun _ => false) (fun _ => some "xy")
      (by decide)).2.2.1 "xy" rfl rfl⟩

/-! ### 4.5 Broadcast Hub — `ConnectionManager`
(`src/main.py:169-195`)

A WebSocket connection is an opaque value of some type `σ` with
decidable equality (Python compares connections by identity in
`remove` / `in`); whether `send_json` succeeds for a connection is
the predicate `healthy`.  `active_connections` is the list of
currently registered subscribers. -/

/-- The send loop of `ConnectionManager.broadcast`
(`src/main.py:184-190`): first component the subscribers whose
`send_json` succeeded (in order), second the `disconnected` list
accumulated from failed sends. -/
def sendLoop {σ : Type} (healthy : σ → Bool) : List σ → List σ × List σ
  | [] => ([], [])
  | c :: rest =>
    let r := sendLoop healthy rest
    if healthy c then (c :: r.1, r.2) else (r.1, c :: r.2)

/-- The cleanup loop of `ConnectionManager.broadcast`
(`src/main.py:193-195`): for each disconnected client, remove it
from the list if still present. -/
def pruneLoop {σ : Type} [DecidableEq σ] (disconnected conns : List σ) :
    List σ :=
  disconnected.foldl
    (fun acc conn => if conn ∈ acc then acc.erase conn else acc) conns

/-- `ConnectionManager.broadcast` (`src/main.py:182-195`): returns
the new `active_connections` and the list of subscribers that
received the message. -/
def broadcast {σ : Type} [DecidableEq σ] (healthy : σ → Bool)
    (conns : List σ) : List σ × List σ :=
  let r := sendLoop healthy conns
  (pruneLoop r.2 conns, r.1)

/-- `ConnectionManager.disconnect` (`src/main.py:178-180`): Python
`list.remove` removes the first occurrence and raises `ValueError`
when the element is absent; the error is modelled as `none`. -/
def disconnect {σ : Type} [DecidableEq σ] (conns : List σ) (ws : σ) :
    Option (List σ) :=
  if ws ∈ conns then some (conns.erase ws) else none

theorem sendLoop_eq {σ : Type} (healthy : σ → Bool) (conns : List σ) :
    sendLoop healthy conns =
      (conns.filter healthy, conns.filter (fun c => !healthy c)) := by
  induction conns with
  | nil => rfl
  | cons c rest ih =>
    simp only [sendLoop, ih, List.filter_cons]
    cases h : healthy c <;> simp [h]

theorem pruneLoop_eq_diff {σ : Type} [DecidableEq σ]
    (d : List σ) (conns : List σ) : pruneLoop d conns = conns.diff d := by
  induction d generalizing conns with
  | nil => rfl
  | cons c d ih =>
    have hstep : pruneLoop (c :: d) conns = pruneLoop d (conns.erase c) := by
      by_cases hc : c ∈ conns
      · simp [pruneLoop, hc]
      · simp [pruneLoop, hc, List.erase_of_not_mem hc]
    rw [hstep, ih, List.diff_cons]

theorem diff_filter_not {σ : Type} [DecidableEq σ]
    (healthy : σ → Bool) (l : List σ) :
    l.diff (l.filter (fun c => !healthy c)) = l.filter healthy := by
  induction l with
  | nil => rfl
  | cons c l ih =>
    cases hc : healthy c
    · rw [List.filter_cons_of_pos (by simp [hc]),
          List.filter_cons_of_neg (by simp [hc]),
          List.diff_cons, List.erase_cons_head]
      exact ih
    · rw [List.filter_cons_of_neg (by simp [hc]),
          List.filter_cons_of_pos (by simp [hc]),
          List.cons_diff_of_not_mem (by simp [List.mem_filter, hc]), ih]

theorem broadcast_snd_eq {σ : Type} [DecidableEq σ]
    (healthy : σ → Bool) (conns : List σ) :
    (broadcast healthy conns).2 = conns.filter healthy := by
  simp [broadcast, sendLoop_eq]

theorem broadcast_fst_eq {σ : Type} [DecidableEq σ]
    (healthy : σ → Bool) (conns : List σ) :
    (broadcast healthy conns).1 = conns.filter healthy := by
  simp [broadcast, sendLoop_eq, pruneLoop_eq_diff, diff_filter_not]

/-- **C8.** `broadcast` attempts delivery to every registered
subscriber: exactly the subscribers whose delivery succeeds receive
the record (second component), and the registered set afterwards is
exactly the subscribers whose delivery succeeded — every failing
subscriber is removed within the same call.  In particular, of 3
registered subscribers with subscriber 2's channel broken, the 2
healthy ones receive the record and the registered set shrinks to
those 2. -/
theorem broadcast_delivers_and_prunes {σ : Type} [DecidableEq σ]
    (healthy : σ → Bool) (conns : List σ) :
    (broadcast healthy conns).2 = conns.filter healthy ∧
    (broadcast healthy conns).1 = conns.filter healthy ∧
    broadcast (fun c => decide (c ≠ 2)) ([1, 2, 3] : List Nat) =
      ([1, 3], [1, 3]) :=
  ⟨broadcast_snd_eq healthy conns, broadcast_fst_eq healthy conns, by decide⟩

/-- **C10.** `ConnectionManager.disconnect` is not idempotent:
removing a subscriber that is not registered is an error (`none`),
not a no-op; hence a subscriber that was registered but whose send
failed during `broadcast` (and was therefore pruned) triggers an
unhandled removal error when its connection handler subsequently
calls `disconnect`. -/
theorem disconnect_after_prune_raises {σ : Type} [DecidableEq σ]
    (conns : List σ) (ws : σ) (healthy : σ → Bool)
    (hmem : ws ∈ conns) (hfail : healthy ws = false) :
    (∀ c, c ∉ conns → disconnect conns c = none) ∧
    disconnect (broadcast healthy conns).1 ws = none := by
  constructor
  · intro c hc
    simp [disconnect, hc]
  · rw [broadcast_fst_eq healthy conns, disconnect]
    simp [List.mem_filter, hfail]

/-- Witness for C10: subscribers `[1, 2, 3]`, subscriber `2` broken;
removing the unregistered `5` errors, and removing `2` after the
broadcast pruned it errors. -/
theorem disconnect_after_prune_raises_witness :
    ((2 : Nat) ∈ [1, 2, 3] ∧
      (fun c : Nat => decide (c ≠ 2)) 2 = false) ∧
    disconnect ([1, 2, 3] : List Nat) 5 = none ∧
    disconnect (broadcast (fun c : Nat => decide (c ≠ 2)) [1, 2, 3]).1 2 =
      none :=
  ⟨⟨by decide, by decide⟩,
   (disconnect_after_prune_raises [1, 2, 3] 2 (fun c => decide (c ≠ 2))
      (by decide) (by decide)).1 5 (by decide),
   (disconnect_after_prune_raises [1, 2, 3] 2 (fun c => decide (c ≠ 2))
      (by decide) (by decide)).2⟩

/-! ### 4.6 Orchestrator — the `/analyze` handler
(`src/main.py:208-273`)

The feature-extraction and ensemble step is abstracted into the
boolean `is_malicious`, since `extract_features` is a stochastic
external oracle.  Redis and MongoDB availability enter through
`AnalyzeEnv`.

A crucial behaviour of the real handler: `src/main.py:238` is
`if analysis_collection:`, and a pymongo `Collection` raises
`NotImplementedError` on truth-testing (no `bool()`; pymongo demands
`is None` comparisons, which `src/logs.py` uses but `src/main.py`
does not).  So with the collection handle present the handler raises
inside the `try` and the blanket `except Exception`
(`src/main.py:271-273`) turns the call into a 500; with the handle
absent (`None`, falsy) the logging block is skipped.  Either way the
insert/broadcast block (`src/main.py:239-267`) is unreachable:
`/analyze` never inserts an audit document and never broadcasts. -/

/-- `RequestData` (`src/main.py:202-206`). -/
structure RequestData where
  method : String
  path : String
  protocol : String
  request_body : String
  deriving DecidableEq, Repr

/-- The shape of the `log_document` that `/analyze` tries to build
(`src/main.py:239-249`) and that the logs service (`src/logs.py`)
serves from the collection; the float fields are rationals. -/
structure AuditDoc where
  timestamp : Nat
  request : RequestData
  is_malicious : Bool
  reconstruction_loss : ℚ
  perplexity : ℚ
  action_taken : String
  auto_learned_rule : Option String
  deriving DecidableEq, Repr

/-- The JSON response of `/analyze` (`src/main.py:232` and `:235`).
The explanatory `reason` string (which interpolates the formatted
loss) is informational and not modelled. -/
structure AnalyzeResponse where
  allow : Bool
  auto_learned_rule : Option String
  deriving DecidableEq, Repr

/-- Process state seen by `/analyze`: the loaded models and which
external handles were obtained at startup
(`collection_available` means `analysis_collection` is not `None`). -/
structure AnalyzeEnv where
  oracle : Oracle
  redis_available : Bool
  collection_available : Bool
  anomaly_model_loaded : Bool

/-- Everything observable from a successful `/analyze` call: the
response, the rules `sadd`-ed to Redis, and the audit document
inserted during the call, if any (provably none: the insert is
unreachable). -/
structure AnalyzeOk where
  response : AnalyzeResponse
  rules_added : List String
  logged : Option AuditDoc
  deriving DecidableEq

/-- Outcome of `/analyze`: a successful JSON response or an HTTP
error.  The error carries the rules already added to Redis before
the failure (the `sadd` at `src/main.py:230-231` runs before the
logging block). -/
inductive AnalyzeResult where
  | ok : AnalyzeOk → AnalyzeResult
  | httpError : Nat → List String → AnalyzeResult
  deriving DecidableEq

/-- `payload = request_data.request_body or request_data.path`
(`src/main.py:228`). -/
def payloadOf (req : RequestData) : String :=
  if req.request_body.data.isEmpty then req.path else req.request_body

/-- Python truthiness of `new_rule` in `if new_rule and r:`
(`src/main.py:230`). -/
def ruleTruthy : Option String → Bool
  | none => false
  | some s => !s.data.isEmpty

/-- The `/analyze` handler (`src/main.py:208-273`).  With the
collection handle present, `if analysis_collection:` truth-tests the
pymongo `Collection` and raises `NotImplementedError` inside the
`try`; the blanket `except` re-raises it as a 500 before any insert
or broadcast happens (the Redis `sadd` has already run).  With the
handle absent, the logging block is skipped and the response is
returned. -/
def analyze (env : AnalyzeEnv) (req : RequestData)
    (is_malicious : Bool) : AnalyzeResult :=
  if !env.anomaly_model_loaded then .httpError 503 []
  else
    let new_rule : Option String :=
      if is_malicious then
        generate_rule_from_payload env.oracle (payloadOf req)
      else none
    let rules_added : List String :=
      if is_malicious && ruleTruthy new_rule && env.redis_available then
        [new_rule.getD ""]
      else []
    let response : AnalyzeResponse :=
      if is_malicious then ⟨false, new_rule⟩ else ⟨true, none⟩
    if env.collection_available then .httpError 500 rules_added
    else .ok ⟨response, rules_added, none⟩

/-- The rules added to Redis during a call, error or not. -/
def rulesAddedOf : AnalyzeResult → List String
  | .ok o => o.rules_added
  | .httpError _ ra => ra

/-- The allow/block decision the caller receives, if any. -/
def decisionOf : AnalyzeResult → Option Bool
  | .ok o => some o.response.allow
  | .httpError _ _ => none

/-- The audit document persisted during a call, if any. -/
def loggedOf : AnalyzeResult → Option AuditDoc
  | .ok o => o.logged
  | .httpError _ _ => none

/-- The empty-payload branch of the synthesizer returns the
literal-escape of the empty prefix, i.e. exactly `"(?i)"`, for every
oracle state. -/
theorem empty_rule_helper (o : Oracle) :
    generate_rule_from_payload o "" = some "(?i)" := by
  have h : generate_rule_from_payload o "" = some (escapeFallback "") := by
    unfold generate_rule_from_payload
    rw [show (("" : String).data.isEmpty || o.llm_pipe.isNone) = true from rfl]
    exact if_pos rfl
  rw [h]
  decide

/-- Concrete process state: everything loaded, Redis reachable, the
collection handle present. -/
def env0 : AnalyzeEnv := ⟨oracleDown, true, true, true⟩

/-- Concrete request with body `"x"`. -/
def req0 : RequestData := ⟨"GET", "/a", "HTTP/1.1", "x"⟩

/-- **C2.** The code cannot uphold the claimed invariant because no
`/analyze` call ever produces an AuditRecord: the logging block is
unreachable (with the handle present, truth-testing the pymongo
collection raises and the call 500s before the insert; with it
absent the block is skipped), so `loggedOf` is `none` on every
outcome, and the concrete handle-present malicious call on `req0`
returns a 500 with no decision instead of the response-plus-record
the claim describes (the rule learned before the crash has already
been added to Redis). -/
theorem analyze_no_audit_record (env : AnalyzeEnv) (req : RequestData)
    (is_malicious : Bool) :
    loggedOf (analyze env req is_malicious) = none ∧
    analyze env0 req0 true = .httpError 500 ["(?i)x"] ∧
    decisionOf (analyze env0 req0 true) = none := by
  refine ⟨?_, by decide, by decide⟩
  cases hload : env.anomaly_model_loaded <;>
    cases hcol : env.collection_available <;>
      simp [analyze, loggedOf, hload, hcol]

/-- Concrete request with empty body and empty path. -/
def reqEmpty : RequestData := ⟨"GET", "", "HTTP/1.1", ""⟩

/-- **C3 counterexample.** On the empty payload the synthesizer does
not return nothing: it returns the truthy string `"(?i)"`, and the
caller consequently does add that rule to the Rule Store (Redis
reachable, malicious verdict, empty body and path). -/
theorem empty_payload_rule_counterexample :
    generate_rule_from_payload oracleDown "" ≠ none ∧
    generate_rule_from_payload oracleDown "" = some "(?i)" ∧
    rulesAddedOf (analyze env0 reqEmpty true) = ["(?i)"] := by
  decide

/-- **C3 (amended).** When the payload is the empty string the Rule
Synthesizer returns the literal-escape pattern `"(?i)"` (a non-empty,
truthy string), so on a malicious verdict with empty request body and
path the caller adds `"(?i)"` to the Rule Store rather than skipping
learning (the `sadd` runs before the logging block, so this holds
whether or not the call later fails there). -/
theorem empty_payload_rule_added (env : AnalyzeEnv)
    (req : RequestData) (o : Oracle)
    (hload : env.anomaly_model_loaded = true)
    (hredis : env.redis_available = true)
    (hbody : req.request_body = "") (hpath : req.path = "") :
    generate_rule_from_payload o "" = some "(?i)" ∧
    rulesAddedOf (analyze env req true) = ["(?i)"] := by
  refine ⟨empty_rule_helper o, ?_⟩
  have hpay : payloadOf req = "" := by simp [payloadOf, hbody, hpath]
  cases hcol : env.collection_available <;>
    simp [analyze, rulesAddedOf, hload, hredis, hcol, hpay,
          empty_rule_helper, ruleTruthy]

/-- Witness for C3 (amended) at `env0`, `reqEmpty`. -/
theorem empty_payload_rule_added_witness :
    env0.anomaly_model_loaded = true ∧ env0.redis_available = true ∧
    reqEmpty.request_body = "" ∧ reqEmpty.path = "" ∧
    generate_rule_from_payload oracleDown "" = some "(?i)" ∧
    rulesAddedOf (analyze env0 reqEmpty true) = ["(?i)"] :=
  ⟨rfl, rfl, rfl, rfl,
   (empty_payload_rule_added env0 reqEmpty oracleDown rfl rfl rfl
      rfl).1,
   (empty_payload_rule_added env0 reqEmpty oracleDown rfl rfl rfl
      rfl).2⟩

/-- **C6 counterexample.** An audit-log–related failure does prevent
the caller from receiving the decision: with the collection handle
present, `if analysis_collection:` raises and `/analyze` returns a
500 with no decision — here even for a benign verdict. -/
theorem analyze_log_failure_prevents_decision :
    analyze env0 req0 false = .httpError 500 [] ∧
    decisionOf (analyze env0 req0 false) = none := by
  decide

/-- **C6 (amended).** If the Audit Log is unavailable at startup (no
collection handle) the allow/block decision is still returned, with
logging and broadcast skipped; but with the handle present every
call dies at the `if analysis_collection:` truth-test (pymongo
`Collection` implements no `bool()`) and returns a 500 instead of
the decision.  The broadcast step is unreachable either way, so
broadcast failures never prevent the decision. -/
theorem analyze_decision_iff_handle_absent (env : AnalyzeEnv)
    (req : RequestData) (is_malicious : Bool)
    (hload : env.anomaly_model_loaded = true) :
    (env.collection_available = false →
      decisionOf (analyze env req is_malicious) =
        some (!is_malicious) ∧
      loggedOf (analyze env req is_malicious) = none) ∧
    (env.collection_available = true →
      decisionOf (analyze env req is_malicious) = none) := by
  cases hcol : env.collection_available <;>
    cases hm : is_malicious <;>
      simp [analyze, decisionOf, loggedOf, hload, hcol, hm]

/-- Environment with the Audit Log unavailable at startup. -/
def envOff : AnalyzeEnv := ⟨oracleDown, true, false, true⟩

/-- Witness for C6 (amended) at `envOff` (handle absent: decision
returned, nothing logged) and `env0` (handle present: no decision),
both on `req0`. -/
theorem analyze_decision_iff_handle_absent_witness :
    envOff.anomaly_model_loaded = true ∧
    envOff.collection_available = false ∧
    decisionOf (analyze envOff req0 true) = some (!true) ∧
    loggedOf (analyze envOff req0 true) = none ∧
    decisionOf (analyze env0 req0 true) = none :=
  ⟨rfl, rfl,
   ((analyze_decision_iff_handle_absent envOff req0 true rfl).1 rfl).1,
   ((analyze_decision_iff_handle_absent envOff req0 true rfl).1 rfl).2,
   (analyze_decision_iff_handle_absent env0 req0 true rfl).2 rfl⟩

/-! ### 4.7 Whitelist override — `/pass-request`
(`src/main.py:315-353`) and the logs service (`src/logs.py`)

MongoDB is modelled as an association list from document id to
document.  `HTTPException`s raised inside a `try` block appear as
`TryExit.httpRaise`; the handlers' blanket `except Exception` clauses
turn any raised exception — `HTTPException` included, since it
subclasses `Exception` — into a 500.  `/pass-request` fails even
earlier when the handle is present: `if not analysis_collection:`
(`src/main.py:324`) truth-tests the pymongo `Collection` and raises
`NotImplementedError` outside the `try`, also surfacing as a generic
500.  `src/logs.py` guards with `is None`, so its `try` bodies do
run. -/

/-- Control flow of a `try` body: normal return or a raised
`HTTPException` with its status code. -/
inductive TryExit (α : Type) where
  | ok : α → TryExit α
  | httpRaise : Nat → TryExit α
  deriving DecidableEq

/-- Endpoint outcome: JSON response or HTTP error status. -/
inductive HttpOutcome (α : Type) where
  | ok : α → HttpOutcome α
  | error : Nat → HttpOutcome α
  deriving DecidableEq

/-- The MongoDB collection, as id ↦ document. -/
abbrev MongoDb := List (String × AuditDoc)

/-- The response of a successful `/pass-request`
(`src/main.py:344-349`): the id, the payload added to
`waf:whitelist`, and the returned preview `request_body[:100]`. -/
structure PassResponse where
  mongo_id : String
  whitelisted : String
  preview : String
  deriving DecidableEq, Repr

/-- The `try` body of `/pass-request` (`src/main.py:327-349`): look
the document up, raise `HTTPException(404)` when absent, raise
`HTTPException(400)` when its request body is empty, otherwise add
the body to the whitelist.  This body encodes the handler's intended
status codes, but it is unreachable in the program: with the handle
present the handler dies on the guard before the `try` (below). -/
def pass_request_try (db : MongoDb) (mongo_id : String) :
    TryExit PassResponse :=
  match db.lookup mongo_id with
  | none => .httpRaise 404
  | some document =>
    let request_body := document.request.request_body
    if request_body.data.isEmpty then .httpRaise 400
    else .ok ⟨mongo_id, request_body, pyTake 100 request_body⟩

/-- `/pass-request` (`src/main.py:315-353`).  `if not r:` tests the
Redis client, which supports ordinary truthiness; but
`if not analysis_collection:` (`src/main.py:324`) truth-tests the
pymongo `Collection`: with the handle absent (`None`) it yields the
clean 503, and with the handle present it raises
`NotImplementedError` outside the `try`, surfacing as a generic
500 — so `pass_request_try` (and the blanket `except Exception`
that would re-raise its 404/400 as a 500) never runs. -/
def pass_request (redis_available collection_available : Bool)
    ( _db : MongoDb) ( _mongo_id : String) :
    HttpOutcome PassResponse :=
  if !redis_available then .error 503
  else if !collection_available then .error 503
  else .error 500

/-- The `try` body of `GET /logs/{log_id}` (`src/logs.py:191-201`). -/
def get_log_by_id_try (db : MongoDb) (log_id : String) :
    TryExit AuditDoc :=
  match db.lookup log_id with
  | none => .httpRaise 404
  | some log => .ok log

/-- `GET /logs/{log_id}` (`src/logs.py:183-204`), including the
blanket `except Exception` that re-raises the 404 as a 500. -/
def get_log_by_id (collection_available : Bool) (db : MongoDb)
    (log_id : String) : HttpOutcome AuditDoc :=
  if !collection_available then .error 503
  else
    match get_log_by_id_try db log_id with
    | .ok v => .ok v
    | .httpRaise _ => .error 500

/-- A stored document whose request body is empty. -/
def emptyBodyDoc : AuditDoc := ⟨5, reqEmpty, true, 1, 2, "BLOCK", none⟩

/-- **C7.** The `try` bodies encode the intended `HTTPException(404)`
(unknown id) and `HTTPException(400)` (empty request body), but the
caller never sees those codes: in `src/logs.py` the blanket
`except Exception` catches the raised 404 and re-raises it as a 500,
and `/pass-request` dies even earlier, on the
`if not analysis_collection:` truth-test, again surfacing a generic
500 — never the 400/404-equivalent the code intends.  Evaluated here
at an unknown id on an empty collection and at a stored document
with an empty body. -/
theorem pass_request_errors_become_500 :
    pass_request_try [] "000000000000000000000000" = .httpRaise 404 ∧
    pass_request true true [] "000000000000000000000000" = .error 500 ∧
    pass_request_try [("id1", emptyBodyDoc)] "id1" = .httpRaise 400 ∧
    pass_request true true [("id1", emptyBodyDoc)] "id1" = .error 500 ∧
    get_log_by_id_try [] "000000000000000000000000" = .httpRaise 404 ∧
    get_log_by_id true [] "000000000000000000000000" = .error 500 := by
  decide

/-! ### 4.4 Audit Log listing — `GET /logs` (`src/logs.py:78-124`) -/

/-- Non-increasing-timestamp ordering used to model
`sort("timestamp", -1)`. -/
def tsGE (a b : AuditDoc) : Prop := b.timestamp ≤ a.timestamp

instance : DecidableRel tsGE := fun a b =>
  Nat.decLe b.timestamp a.timestamp

instance : IsTotal AuditDoc tsGE :=
  ⟨fun a b => (Nat.le_total a.timestamp b.timestamp).symm⟩

instance : IsTrans AuditDoc tsGE :=
  ⟨fun _ _ _ hab hbc => le_trans hbc hab⟩

/-- The JSON response of `GET /logs` (`src/logs.py:113-120`). -/
structure LogsResponse where
  logs : List AuditDoc
  count : Nat
  total : Nat
  skip : Int
  limit : Int
  has_more : Bool
  deriving DecidableEq, Repr

/-- The clamping and `try` body of `GET /logs`
(`src/logs.py:91-120`): clamp `limit` to `[1, 1000]` and `skip` to
`≥ 0`, sort by timestamp descending (insertion order preserved for
ties), skip, limit, and report the pagination fields. -/
def get_logs_body (db : List AuditDoc) (limit skip : Int) :
    LogsResponse :=
  let limit := min limit 1000
  let limit := max limit 1
  let skip := max skip 0
  let logs := ((db.insertionSort tsGE).drop skip.toNat).take limit.toNat
  let total_count := db.length
  { logs := logs, count := logs.length, total := total_count,
    skip := skip, limit := limit,
    has_more := decide (skip + (logs.length : Int) < (total_count : Int)) }

/-- `GET /logs` (`src/logs.py:78-124`). -/
def get_logs (collection_available : Bool) (db : List AuditDoc)
    (limit skip : Int) : HttpOutcome LogsResponse :=
  if !collection_available then .error 503
  else .ok (get_logs_body db limit skip)

/-- **C9.** For every `skip` and `limit`, `GET /logs` clamps the
effective limit to `[1, 1000]` and the effective skip to `≥ 0`,
returns records in non-increasing timestamp order, and reports
`has_more = (skip + number of returned records) < total` (with the
clamped skip, which the handler reuses in the formula). -/
theorem get_logs_spec (db : List AuditDoc) (limit skip : Int) :
    1 ≤ (get_logs_body db limit skip).limit ∧
    (get_logs_body db limit skip).limit ≤ 1000 ∧
    0 ≤ (get_logs_body db limit skip).skip ∧
    (0 ≤ skip → (get_logs_body db limit skip).skip = skip) ∧
    (get_logs_body db limit skip).logs.Sorted tsGE ∧
    ((get_logs_body db limit skip).has_more =
      decide ((get_logs_body db limit skip).skip +
        ((get_logs_body db limit skip).count : Int) <
        ((get_logs_body db limit skip).total : Int))) ∧
    get_logs true db limit skip = .ok (get_logs_body db limit skip) := by
  refine ⟨?_, ?_, ?_, ?_, ?_, rfl, rfl⟩
  · simp only [get_logs_body]; omega
  · simp only [get_logs_body]; omega
  · simp only [get_logs_body]; omega
  · intro hsk; simp only [get_logs_body]; omega
  · have hs : (db.insertionSort tsGE).Sorted tsGE :=
      List.sorted_insertionSort tsGE db
    exact hs.sublist
      ((List.take_sublist _ _).trans (List.drop_sublist _ _))

/-- Three documents with distinct timestamps, inserted out of
order. -/
def dbSample : List AuditDoc :=
  [⟨1, req0, false, 1, 2, "ALLOW", none⟩,
   ⟨9, req0, true, 1, 2, "BLOCK", some "(?i)x"⟩,
   ⟨4, req0, false, 1, 2, "ALLOW", none⟩]

/-- Witness for C9 at a three-document collection, `limit = 2`,
`skip = 1`. -/
theorem get_logs_spec_witness :
    (0 : Int) ≤ 1 ∧
    1 ≤ (get_logs_body dbSample 2 1).limit ∧
    (get_logs_body dbSample 2 1).skip = 1 ∧
    (get_logs_body dbSample 2 1).logs.Sorted tsGE :=
  ⟨by decide, (get_logs_spec dbSample 2 1).1,
   (get_logs_spec dbSample 2 1).2.2.2.1 (by decide),
   (get_logs_spec dbSample 2 1).2.2.2.2.1⟩

end WAF
